import Mathlib

/-!
Verification of `src/third_party/houdini/lib/gusd/pointsWrapper.cpp`
(`GusdPointsWrapper`), a bidirectional adapter between Houdini's GT
primitive model and USD's `UsdGeomPoints` schema.

Shallow embedding: float values are modelled as `Rat` (the only arithmetic
performed by the adapter is multiplication by 0.5 and by 2, which is exact),
USD attributes as `Option` values (`some` = the attribute handle is valid and
carries an authored opinion), and the side effects of the write path as an
explicit list of write operations.  Functions of the adapter's base class
and of the two host libraries that are not part of the source file are
modelled from the specification and say so in their doc comments.
-/

namespace Gusd

/-- A 3-component float vector (GfVec3f). -/
abbrev Vec3 := Rat × Rat × Rat

/-- GT storage type tags used by the wrapper when building GT data arrays. -/
inductive GTTypeTag where
  | point
  | normal
  | vector
  | plain
deriving DecidableEq, Repr

/-- A GT data array: a flat float buffer with a tuple size and a type tag
(GT_DataArray / GT_Real32Array / GusdGT_VtArray). -/
structure GT_DataArray where
  tupleSize : Nat
  typeTag : GTTypeTag
  data : List Rat
deriving DecidableEq, Repr

/-- Flatten a Vec3f array into a GT data array of tuple size 3
(GusdGT_VtArray of GfVec3f). -/
def gtV3Array (vals : List Vec3) (tag : GTTypeTag) : GT_DataArray :=
  { tupleSize := 3
    typeTag := tag
    data := vals.flatMap (fun v => [v.1, v.2.1, v.2.2]) }

/-- GT attribute owners. -/
inductive GT_Owner where
  | point
  | vertex
  | uniform
  | constant
  | invalid
deriving DecidableEq, Repr

/-- A GT attribute list: named data arrays, in insertion order. -/
abbrev GT_AttributeList := List (String × GT_DataArray)

/-- The read-side `UsdGeomPoints` prim at the wrapper's time sample.
Each schema attribute is `some` exactly when the attribute handle is valid
and `HasAuthoredValueOpinion` holds, carrying the value `Get` returns at the
wrapper's time.  The primvar fields model what `loadPrimvars` (base class,
not in the source file) collects at point and constant rate. -/
structure UsdGeomPointsPrim where
  pointsAttr : Option (List Vec3)
  normalsAttr : Option (List Vec3)
  velocitiesAttr : Option (List Vec3)
  widthsAttr : Option (List Rat)
  pointPrimvars : List (String × GT_DataArray)
  constantPrimvars : List (String × GT_DataArray)
  path : String
deriving DecidableEq, Repr

/-- A `UsdGeomPoints` prim with no valid attributes: what dereferencing an
empty read holder yields (every `Get...Attr()` handle is invalid). -/
def invalidPointsPrim : UsdGeomPointsPrim :=
  { pointsAttr := none
    normalsAttr := none
    velocitiesAttr := none
    widthsAttr := none
    pointPrimvars := []
    constantPrimvars := []
    path := "" }

/-- The wrapper state: `usdPointsForWrite` models the validity of the
`m_usdPointsForWrite` schema handle, `usdPointsForRead` the
`m_usdPointsForRead` holder (`none` = default-constructed, holding no prim). -/
structure GusdPointsWrapper where
  usdPointsForWrite : Bool
  usdPointsForRead : Option UsdGeomPointsPrim
deriving DecidableEq, Repr

/-- `GusdPointsWrapper::isValid` (line 280): either handle is set. -/
def GusdPointsWrapper.isValid (w : GusdPointsWrapper) : Bool :=
  w.usdPointsForWrite || w.usdPointsForRead.isSome

/-- Modelled from the spec: `GT_GEOPrimPacked::useViewportLOD(parms)` (host
library, not in the source file) — whether the viewport level-of-detail
shortcut applies; absent parms mean no shortcut. -/
def useViewportLOD (parms : Option Bool) : Bool :=
  parms.getD false

/-- The refined output primitive (GT_PrimPointMesh): point-rate and
constant-rate attribute lists. -/
structure GT_PrimPointMesh where
  pointAttrs : GT_AttributeList
  detailAttrs : GT_AttributeList
deriving DecidableEq, Repr

/-- The outcome of `refine`: the boolean result, the primitives added to the
refiner, and the diagnostics issued via TF_WARN. -/
structure RefineResult where
  ok : Bool
  prims : List GT_PrimPointMesh
  warnings : List String
deriving DecidableEq, Repr

/-- The widths-to-pscale scaling applied on read (line 206):
each width value is multiplied by 0.5. -/
def halveWidths (ws : List Rat) : GT_DataArray :=
  { tupleSize := 1, typeTag := .plain, data := ws.map (fun x => x * (1 / 2)) }

/-- One optional Vec3f point attribute of the read path (normals at lines
160-174, velocities at lines 176-190): if authored but shorter than the
positions array, warn and skip; otherwise add it under the GT name. -/
def addV3PointAttr (gtName warnName : String) (tag : GTTypeTag)
    (attr : Option (List Vec3)) (usdPoints : List Vec3) (path : String)
    (attrs : GT_AttributeList) : GT_AttributeList × List String :=
  match attr with
  | none => (attrs, [])
  | some arr =>
    if arr.length < usdPoints.length then
      (attrs, ["Not enough values found for " ++ warnName ++ " in " ++ path])
    else
      (attrs ++ [(gtName, gtV3Array arr tag)], [])

/-- The widths step of the read path (lines 192-210): if authored but shorter
than the positions array, warn and skip; otherwise add the halved values
under the name pscale. -/
def addWidthsAttr (attr : Option (List Rat)) (usdPoints : List Vec3)
    (path : String) (attrs : GT_AttributeList) :
    GT_AttributeList × List String :=
  match attr with
  | none => (attrs, [])
  | some arr =>
    if arr.length < usdPoints.length then
      (attrs, ["Not enough values found for widths in " ++ path])
    else
      (attrs ++ [("pscale", halveWidths arr)], [])

/-- Modelled from the spec: `GusdPrimWrapper::loadPrimvars` (base class, not
in the source file) appends the pass-through primvars collected at
point rate to the point attribute list and those collected at constant rate
to the detail attribute list. -/
def loadPrimvars (prim : UsdGeomPointsPrim)
    (pointAttrs detailAttrs : GT_AttributeList) :
    GT_AttributeList × GT_AttributeList :=
  (pointAttrs ++ prim.pointPrimvars, detailAttrs ++ prim.constantPrimvars)

/-- `GusdPointsWrapper::refine` (lines 130-229).  The read holder is
dereferenced after the validity check; an empty holder yields a prim with
no valid attributes, so the mandatory points attribute check fails. -/
def GusdPointsWrapper.refine (w : GusdPointsWrapper) (parms : Option Bool) :
    RefineResult :=
  if !w.isValid then { ok := false, prims := [], warnings := [] }
  else
    let refineForViewport := useViewportLOD parms
    let points := w.usdPointsForRead.getD invalidPointsPrim
    match points.pointsAttr with
    | none => { ok := false, prims := [], warnings := ["Invalid point attribute"] }
    | some usdPoints =>
      let gtPointAttrs : GT_AttributeList := [("P", gtV3Array usdPoints .point)]
      let gtDetailAttrs : GT_AttributeList := []
      if refineForViewport then
        { ok := true
          prims := [{ pointAttrs := gtPointAttrs, detailAttrs := gtDetailAttrs }]
          warnings := [] }
      else
        let stepN := addV3PointAttr "N" "normals" .normal points.normalsAttr
                        usdPoints points.path gtPointAttrs
        let stepV := addV3PointAttr "v" "velocities" .vector points.velocitiesAttr
                        usdPoints points.path stepN.1
        let stepW := addWidthsAttr points.widthsAttr usdPoints points.path stepV.1
        let loaded := loadPrimvars points stepW.1 gtDetailAttrs
        { ok := true
          prims := [{ pointAttrs := loaded.1, detailAttrs := loaded.2 }]
          warnings := stepN.2 ++ stepV.2 ++ stepW.2 }

/-- Modelled from the spec: `GusdGT_AttrFilter` (gusd library, not in the
source file) — a name filter with a base pattern supplied by the context,
per-owner exclusion patterns appended with `appendPattern`, and a set of
active owners. -/
structure GusdGT_AttrFilter where
  base : GT_Owner → String → Bool
  exclusions : List (GT_Owner × String)
  activeOwners : List GT_Owner

/-- Split a character list into space-separated words. -/
def splitWordsAux : List Char → List Char → List (List Char)
  | [], acc => if acc.isEmpty then [] else [acc.reverse]
  | c :: cs, acc =>
    if c = ' ' then
      if acc.isEmpty then splitWordsAux cs []
      else acc.reverse :: splitWordsAux cs []
    else splitWordsAux cs (c :: acc)

/-- Modelled from the spec: parse an exclusion pattern string such as
the caret-separated reserved-name list into the excluded names: each
space-separated word starting with a caret excludes the rest of the word. -/
def parseExclusions (pat : String) : List String :=
  (splitWordsAux pat.data []).filterMap
    (fun w =>
      match w with
      | '^' :: rest => some (String.mk rest)
      | _ => none)

/-- Modelled from the spec: `GusdGT_AttrFilter::appendPattern` records each
caret-prefixed name of the pattern as excluded for the given owner. -/
def GusdGT_AttrFilter.appendPattern (f : GusdGT_AttrFilter) (owner : GT_Owner)
    (pat : String) : GusdGT_AttrFilter :=
  { f with exclusions := f.exclusions ++ (parseExclusions pat).map (fun n => (owner, n)) }

/-- Modelled from the spec: `GusdGT_AttrFilter::setActiveOwners`. -/
def GusdGT_AttrFilter.setActiveOwners (f : GusdGT_AttrFilter)
    (owners : List GT_Owner) : GusdGT_AttrFilter :=
  { f with activeOwners := owners }

/-- Modelled from the spec: the filter accepts a name if some active owner
passes the base pattern and the name is not excluded for that owner. -/
def GusdGT_AttrFilter.matches (f : GusdGT_AttrFilter) (name : String) : Bool :=
  f.activeOwners.any
    (fun o => f.base o name && !((o, name) ∈ f.exclusions : Bool))

/-- The GT source primitive handed to the write path: the searchable
attributes (`findAttribute` view, each with its owner), the point-rate
attribute list, the detail (constant-rate) attribute list, and the extents
array `GusdGT_Utils::getExtentsArray` computes for it. -/
structure GTSourcePrim where
  attrs : List (String × GT_Owner × GT_DataArray)
  pointAttributes : Option GT_AttributeList
  detailAttributes : Option GT_AttributeList
  extents : Option GT_DataArray

/-- `sourcePrim->findAttribute(name, owner, 0)`: the first attribute of that
name, with its owner. -/
def GTSourcePrim.findAttribute (src : GTSourcePrim) (name : String) :
    Option (GT_Owner × GT_DataArray) :=
  (src.attrs.find? (fun e => e.1 == name)).map (fun e => e.2)

/-- The value of the USD purpose token `UsdGeomTokens->default_`. -/
def UsdGeomTokens.fallbackPurpose : String := "default"

/-- Authoring granularity of the context. -/
inductive Granularity where
  | perFrame
  | perStage
deriving DecidableEq, Repr

/-- The slice of `GusdContext` the write path consults: `getOverGeo` on the
source prim, the purpose token, the granularity and the attribute filter. -/
structure GusdContext where
  overGeo : Bool
  purpose : String
  granularity : Granularity
  attributeFilter : GusdGT_AttrFilter

/-- One observable scene-description effect of the write path. -/
inductive WriteOp where
  | setAttr (name : String) (owner : GT_Owner) (data : GT_DataArray)
  | setXform (sampledPerFrame : Bool)
  | setPurpose (purpose : String)
  | updateVisibility
  | setPrimvar (name : String) (interp : String) (data : GT_DataArray)
  | baseClassUpdate
deriving DecidableEq, Repr

/-- Modelled from the spec: `GusdPrimWrapper::updateAttributeFromGTPrim`
(base class, not in the source file) writes the Houdini attribute data to
the named schema attribute when the Houdini data is present, and does
nothing otherwise. -/
def updateAttributeFromGTPrim (owner : GT_Owner) (name : String)
    (houAttr : Option GT_DataArray) : List WriteOp :=
  match houAttr with
  | some a => [.setAttr name owner a]
  | none => []

/-- The widths source resolution of the write path (lines 344-363): prefer an
explicit widths attribute; otherwise fall back to pscale, multiplying its
values by 2 when it is a scalar (tuple size 1) array. -/
def resolveWidthsSource (src : GTSourcePrim) : Option (GT_Owner × GT_DataArray) :=
  match src.findAttribute "widths" with
  | some oa => some oa
  | none =>
    match src.findAttribute "pscale" with
    | none => none
    | some (o, a) =>
      if a.tupleSize == 1 then
        some (o, { tupleSize := 1, typeTag := .plain, data := a.data.map (fun x => 2 * x) })
      else
        some (o, a)

/-- Modelled from the spec: `GusdPrimWrapper::updatePrimvarFromGTPrim` (base
class, not in the source file) writes each attribute of the list that the
filter accepts as a primvar with the given interpolation. -/
def updatePrimvarFromGTPrim (attrs : GT_AttributeList)
    (filter : GusdGT_AttrFilter) (interp : String) : List WriteOp :=
  attrs.filterMap
    (fun e => if filter.matches e.1 then some (.setPrimvar e.1 interp e.2) else none)

/-- The generic primvar pass-through step of `updateFromGTPrim`
(lines 371-385): append the reserved-name exclusion patterns to the
context's filter, then pass point attributes through at vertex
interpolation and detail attributes at constant interpolation. -/
def passThroughPrimvarOps (src : GTSourcePrim) (ctxt : GusdContext) :
    List WriteOp :=
  let filter := ctxt.attributeFilter
  let filter := filter.appendPattern .point "^P ^N ^v ^widths ^pscale ^visible ^usdactive"
  let filter := filter.appendPattern .constant "^visible ^usdactive"
  let pointOps :=
    match src.pointAttributes with
    | some pointAttrs =>
        updatePrimvarFromGTPrim pointAttrs (filter.setActiveOwners [.point]) "vertex"
    | none => []
  let constOps :=
    match src.detailAttributes with
    | some constAttrs =>
        updatePrimvarFromGTPrim constAttrs (filter.setActiveOwners [.constant]) "constant"
    | none => []
  pointOps ++ constOps

/-- The display-color promotion step (lines 387-397): a Cd attribute is
written as the displayColor primvar through a match-all filter. -/
def displayColorOps (src : GTSourcePrim) : List WriteOp :=
  match src.findAttribute "Cd" with
  | some (_, cd) => [.setPrimvar "displayColor" "fromOwner" cd]
  | none => []

/-- The purpose step (lines 320-322): author the purpose attribute only for
newly authored geometry with a non-default purpose. -/
def purposeOps (ctxt : GusdContext) : List WriteOp :=
  if (!ctxt.overGeo) && ctxt.purpose != UsdGeomTokens.fallbackPurpose then
    [.setPurpose ctxt.purpose]
  else []

/-- The visibility step (lines 325-327): update visibility when authoring
per-frame. -/
def visibilityOps (ctxt : GusdContext) : List WriteOp :=
  if ctxt.granularity == .perFrame then [.updateVisibility] else []

/-- The find-then-write step used for P, N and v (lines 330-342): find the
named Houdini attribute and hand it to `updateAttributeFromGTPrim`. -/
def findAndWriteAttr (src : GTSourcePrim) (name : String) : List WriteOp :=
  match src.findAttribute name with
  | some (o, a) => updateAttributeFromGTPrim o name (some a)
  | none => updateAttributeFromGTPrim .invalid name none

/-- The widths write step (lines 344-365): resolve the widths source
(explicit widths, else doubled scalar pscale) and write it to the schema's
widths attribute. -/
def widthsWriteOps (src : GTSourcePrim) : List WriteOp :=
  match resolveWidthsSource src with
  | some (o, a) => updateAttributeFromGTPrim o "widths" (some a)
  | none => updateAttributeFromGTPrim .invalid "widths" none

/-- `GusdPointsWrapper::updateFromGTPrim` (lines 285-401): the boolean
result together with the ordered list of scene-description writes. -/
def GusdPointsWrapper.updateFromGTPrim (w : GusdPointsWrapper)
    (src : GTSourcePrim) (ctxt : GusdContext) : Bool × List WriteOp :=
  if !w.usdPointsForWrite then (false, [])
  else
    (true,
      updateAttributeFromGTPrim .invalid "extents" src.extents
        ++ [.setXform (ctxt.granularity == .perFrame)]
        ++ purposeOps ctxt
        ++ visibilityOps ctxt
        ++ findAndWriteAttr src "P"
        ++ findAndWriteAttr src "N"
        ++ findAndWriteAttr src "v"
        ++ widthsWriteOps src
        ++ passThroughPrimvarOps src ctxt
        ++ displayColorOps src
        ++ [.baseClassUpdate])

/-- The write-side stage: whether `UsdGeomPoints::Define` and
`stage->OverridePrim` produce a valid prim at a given path. -/
structure UsdStagePtr where
  defineOk : String → Bool
  overrideOk : String → Bool

/-- `GusdPointsWrapper::initUsdPrim` (lines 66-78): define or override the
prim at the path and report whether the resulting schema handle is valid. -/
def initUsdPrim (stage : UsdStagePtr) (path : String) (asOverride : Bool) : Bool :=
  if asOverride then stage.overrideOk path else stage.defineOk path

/-- `GusdPointsWrapper::redefine` (lines 104-113): re-init the write prim at
the new path, clear caches, and return true; the result of `initUsdPrim`
is discarded. -/
def GusdPointsWrapper.redefine (w : GusdPointsWrapper) (stage : UsdStagePtr)
    (path : String) (ctxt : GusdContext) : GusdPointsWrapper × Bool :=
  ({ w with usdPointsForWrite := initUsdPrim stage path ctxt.overGeo }, true)

/-- Lookup of a named attribute in a GT attribute list (first match). -/
def getAttr (attrs : GT_AttributeList) (name : String) : Option GT_DataArray :=
  (attrs.find? (fun e => e.1 == name)).map (fun e => e.2)

/-- The contribution of one optional Vec3f attribute to the point attribute
list: nothing when unauthored or undersized, the tagged array otherwise. -/
def v3Tail (gtName : String) (tag : GTTypeTag) (attr : Option (List Vec3))
    (pts : List Vec3) : GT_AttributeList :=
  match attr with
  | none => []
  | some arr =>
    if arr.length < pts.length then [] else [(gtName, gtV3Array arr tag)]

/-- The warning contribution of one optional Vec3f attribute. -/
def v3Warn (warnName : String) (attr : Option (List Vec3)) (pts : List Vec3)
    (path : String) : List String :=
  match attr with
  | none => []
  | some arr =>
    if arr.length < pts.length then
      ["Not enough values found for " ++ warnName ++ " in " ++ path]
    else []

/-- The contribution of the widths attribute to the point attribute list. -/
def widthsTail (attr : Option (List Rat)) (pts : List Vec3) : GT_AttributeList :=
  match attr with
  | none => []
  | some arr =>
    if arr.length < pts.length then [] else [("pscale", halveWidths arr)]

/-- The warning contribution of the widths attribute. -/
def widthsWarn (attr : Option (List Rat)) (pts : List Vec3) (path : String) :
    List String :=
  match attr with
  | none => []
  | some arr =>
    if arr.length < pts.length then
      ["Not enough values found for widths in " ++ path]
    else []

theorem addV3PointAttr_eq (gtName warnName : String) (tag : GTTypeTag)
    (attr : Option (List Vec3)) (pts : List Vec3) (path : String)
    (attrs : GT_AttributeList) :
    addV3PointAttr gtName warnName tag attr pts path attrs
      = (attrs ++ v3Tail gtName tag attr pts, v3Warn warnName attr pts path) := by
  cases attr with
  | none => simp [addV3PointAttr, v3Tail, v3Warn]
  | some arr =>
    simp only [addV3PointAttr, v3Tail, v3Warn]
    split <;> simp

theorem addWidthsAttr_eq (attr : Option (List Rat)) (pts : List Vec3)
    (path : String) (attrs : GT_AttributeList) :
    addWidthsAttr attr pts path attrs
      = (attrs ++ widthsTail attr pts, widthsWarn attr pts path) := by
  cases attr with
  | none => simp [addWidthsAttr, widthsTail, widthsWarn]
  | some arr =>
    simp only [addWidthsAttr, widthsTail, widthsWarn]
    split <;> simp

/-- Characterization of `refine` when the wrapper holds a read prim with a
valid points attribute and the viewport shortcut does not apply. -/
theorem refine_nonviewport (w : GusdPointsWrapper) (parms : Option Bool)
    (p : UsdGeomPointsPrim) (pts : List Vec3)
    (hread : w.usdPointsForRead = some p)
    (hvp : useViewportLOD parms = false)
    (hpts : p.pointsAttr = some pts) :
    w.refine parms =
      { ok := true
        prims := [{ pointAttrs :=
                      [("P", gtV3Array pts .point)]
                        ++ v3Tail "N" .normal p.normalsAttr pts
                        ++ v3Tail "v" .vector p.velocitiesAttr pts
                        ++ widthsTail p.widthsAttr pts
                        ++ p.pointPrimvars
                    detailAttrs := p.constantPrimvars }]
        warnings := v3Warn "normals" p.normalsAttr pts p.path
                      ++ v3Warn "velocities" p.velocitiesAttr pts p.path
                      ++ widthsWarn p.widthsAttr pts p.path } := by
  simp [GusdPointsWrapper.refine, GusdPointsWrapper.isValid, hread, hvp, hpts,
        addV3PointAttr_eq, addWidthsAttr_eq, loadPrimvars, List.append_assoc]

/-- Characterization of `refine` when the wrapper holds a read prim with a
valid points attribute and the viewport shortcut applies. -/
theorem refine_viewport (w : GusdPointsWrapper) (parms : Option Bool)
    (p : UsdGeomPointsPrim) (pts : List Vec3)
    (hread : w.usdPointsForRead = some p)
    (hvp : useViewportLOD parms = true)
    (hpts : p.pointsAttr = some pts) :
    w.refine parms =
      { ok := true
        prims := [{ pointAttrs := [("P", gtV3Array pts .point)]
                    detailAttrs := [] }]
        warnings := [] } := by
  simp [GusdPointsWrapper.refine, GusdPointsWrapper.isValid, hread, hvp, hpts]

theorem getAttr_append_of_none (l1 l2 : GT_AttributeList) (n : String)
    (h : getAttr l1 n = none) : getAttr (l1 ++ l2) n = getAttr l2 n := by
  induction l1 with
  | nil => simp
  | cons e t ih =>
    by_cases he : e.1 == n
    · simp [getAttr, List.find?, he] at h
    · simp only [getAttr, List.find?, List.cons_append, he] at h ⊢
      exact ih h

theorem getAttr_append_of_some (l1 l2 : GT_AttributeList) (n : String)
    (d : GT_DataArray) (h : getAttr l1 n = some d) :
    getAttr (l1 ++ l2) n = some d := by
  induction l1 with
  | nil => simp [getAttr] at h
  | cons e t ih =>
    by_cases he : e.1 == n
    · simp only [getAttr, List.find?, List.cons_append, he] at h ⊢
      exact h
    · simp only [getAttr, List.find?, List.cons_append, he] at h ⊢
      exact ih h

theorem getAttr_v3Tail_ne (gtName : String) (tag : GTTypeTag)
    (attr : Option (List Vec3)) (pts : List Vec3) (n : String)
    (h : n ≠ gtName) : getAttr (v3Tail gtName tag attr pts) n = none := by
  cases attr with
  | none => simp [v3Tail, getAttr]
  | some arr =>
    simp only [v3Tail]
    split
    · simp [getAttr]
    · have hb : (gtName == n) = false := beq_eq_false_iff_ne.mpr (Ne.symm h)
      simp [getAttr, List.find?, hb]

theorem getAttr_widthsTail_ne (attr : Option (List Rat)) (pts : List Vec3)
    (n : String) (h : n ≠ "pscale") :
    getAttr (widthsTail attr pts) n = none := by
  cases attr with
  | none => simp [widthsTail, getAttr]
  | some arr =>
    simp only [widthsTail]
    split
    · simp [getAttr]
    · have hb : ("pscale" == n) = false := beq_eq_false_iff_ne.mpr (Ne.symm h)
      simp [getAttr, List.find?, hb]

theorem getAttr_append (l1 l2 : GT_AttributeList) (n : String) :
    getAttr (l1 ++ l2) n
      = match getAttr l1 n with
        | some d => some d
        | none => getAttr l2 n := by
  cases h : getAttr l1 n with
  | none => simp [getAttr_append_of_none l1 l2 n h]
  | some d => simp [getAttr_append_of_some l1 l2 n d h]

theorem getAttr_nil (n : String) : getAttr [] n = none := rfl

theorem getAttr_cons (a : String) (d : GT_DataArray) (t : GT_AttributeList)
    (n : String) :
    getAttr ((a, d) :: t) n = if a == n then some d else getAttr t n := by
  by_cases h : a == n <;> simp [getAttr, List.find?, h]

/-- C1: on the read path, for every authored widths array that `refine`
accepts (authored, and at least as long as the positions array, on the
non-viewport path), the value stored into the host point-attribute list
under the name pscale at each index equals the authored width at that index
multiplied by 0.5. -/
theorem C1_pscale_is_half_width (w : GusdPointsWrapper) (parms : Option Bool)
    (p : UsdGeomPointsPrim) (pts : List Vec3) (ws : List Rat)
    (hread : w.usdPointsForRead = some p)
    (hvp : useViewportLOD parms = false)
    (hpts : p.pointsAttr = some pts)
    (hws : p.widthsAttr = some ws)
    (hlen : pts.length ≤ ws.length) :
    ∃ prim, (w.refine parms).prims = [prim] ∧
      getAttr prim.pointAttrs "pscale" = some (halveWidths ws) ∧
      ∀ i : Nat, (halveWidths ws).data[i]? = (ws[i]?).map (fun x => x * (1 / 2)) := by
  rw [refine_nonviewport w parms p pts hread hvp hpts]
  have hD : widthsTail p.widthsAttr pts = [("pscale", halveWidths ws)] := by
    simp [widthsTail, hws, Nat.not_lt.mpr hlen]
  exact ⟨_, rfl, by
    simp [getAttr_append, hD, getAttr_cons,
          getAttr_v3Tail_ne "N" .normal p.normalsAttr pts "pscale" (by decide),
          getAttr_v3Tail_ne "v" .vector p.velocitiesAttr pts "pscale" (by decide)],
    by simp [halveWidths]⟩

/-- Concrete read prim for the C1 witness. -/
def wit1Prim : UsdGeomPointsPrim :=
  { pointsAttr := some [(0, 0, 0), (1, 1, 1)]
    normalsAttr := none
    velocitiesAttr := none
    widthsAttr := some [3, 5]
    pointPrimvars := []
    constantPrimvars := []
    path := "/points" }

/-- Concrete read wrapper for the C1 witness. -/
def wit1Wrapper : GusdPointsWrapper :=
  { usdPointsForWrite := false, usdPointsForRead := some wit1Prim }

/-- C1 witness at a concrete two-point prim with widths 3 and 5. -/
theorem C1_pscale_is_half_width_witness :
    ∃ prim, (wit1Wrapper.refine (some false)).prims = [prim] ∧
      getAttr prim.pointAttrs "pscale" = some (halveWidths [3, 5]) ∧
      ∀ i : Nat, (halveWidths [3, 5]).data[i]?
        = ((([3, 5] : List Rat))[i]?).map (fun x => x * (1 / 2)) :=
  C1_pscale_is_half_width wit1Wrapper (some false) wit1Prim
    [(0, 0, 0), (1, 1, 1)] [3, 5] rfl rfl rfl rfl (by decide)

/-- C3: on the non-viewport read path, each optional point-derived attribute
(normals, velocities, widths) that is authored but shorter than the positions
array is dropped with a warning while `refine` still succeeds; an authored
attribute at least as long as the positions array is included in the output
(so any attribute of that name can only come from the pass-through
primvars, not from the dropped attribute). -/
theorem C3_undersized_attrs_dropped (w : GusdPointsWrapper)
    (parms : Option Bool) (p : UsdGeomPointsPrim) (pts : List Vec3)
    (hread : w.usdPointsForRead = some p)
    (hvp : useViewportLOD parms = false)
    (hpts : p.pointsAttr = some pts) :
    (w.refine parms).ok = true ∧
    ∃ prim, (w.refine parms).prims = [prim] ∧
      (∀ ns, p.normalsAttr = some ns →
        (ns.length < pts.length →
          ("Not enough values found for normals in " ++ p.path)
              ∈ (w.refine parms).warnings ∧
          getAttr prim.pointAttrs "N" = getAttr p.pointPrimvars "N") ∧
        (pts.length ≤ ns.length →
          getAttr prim.pointAttrs "N" = some (gtV3Array ns .normal))) ∧
      (∀ vs, p.velocitiesAttr = some vs →
        (vs.length < pts.length →
          ("Not enough values found for velocities in " ++ p.path)
              ∈ (w.refine parms).warnings ∧
          getAttr prim.pointAttrs "v" = getAttr p.pointPrimvars "v") ∧
        (pts.length ≤ vs.length →
          getAttr prim.pointAttrs "v" = some (gtV3Array vs .vector))) ∧
      (∀ ws, p.widthsAttr = some ws →
        (ws.length < pts.length →
          ("Not enough values found for widths in " ++ p.path)
              ∈ (w.refine parms).warnings ∧
          getAttr prim.pointAttrs "pscale" = getAttr p.pointPrimvars "pscale") ∧
        (pts.length ≤ ws.length →
          getAttr prim.pointAttrs "pscale" = some (halveWidths ws))) := by
  rw [refine_nonviewport w parms p pts hread hvp hpts]
  refine ⟨rfl, _, rfl, ?_, ?_, ?_⟩
  · intro ns hns
    constructor
    · intro hlt
      have hB : v3Tail "N" .normal p.normalsAttr pts = [] := by
        simp [v3Tail, hns, hlt]
      refine ⟨by simp [v3Warn, hns, hlt], ?_⟩
      simp [hB, getAttr_append, getAttr_cons,
            getAttr_v3Tail_ne "v" .vector p.velocitiesAttr pts "N" (by decide),
            getAttr_widthsTail_ne p.widthsAttr pts "N" (by decide)]
    · intro hge
      have hB : v3Tail "N" .normal p.normalsAttr pts
          = [("N", gtV3Array ns .normal)] := by
        simp [v3Tail, hns, Nat.not_lt.mpr hge]
      simp [hB, getAttr_append, getAttr_cons]
  · intro vs hvs
    constructor
    · intro hlt
      have hC : v3Tail "v" .vector p.velocitiesAttr pts = [] := by
        simp [v3Tail, hvs, hlt]
      refine ⟨by simp [v3Warn, hvs, hlt], ?_⟩
      simp [hC, getAttr_append, getAttr_cons,
            getAttr_v3Tail_ne "N" .normal p.normalsAttr pts "v" (by decide),
            getAttr_widthsTail_ne p.widthsAttr pts "v" (by decide)]
    · intro hge
      have hC : v3Tail "v" .vector p.velocitiesAttr pts
          = [("v", gtV3Array vs .vector)] := by
        simp [v3Tail, hvs, Nat.not_lt.mpr hge]
      simp [hC, getAttr_append, getAttr_cons,
            getAttr_v3Tail_ne "N" .normal p.normalsAttr pts "v" (by decide)]
  · intro ws hws
    constructor
    · intro hlt
      have hD : widthsTail p.widthsAttr pts = [] := by
        simp [widthsTail, hws, hlt]
      refine ⟨by simp [widthsWarn, hws, hlt], ?_⟩
      simp [hD, getAttr_append, getAttr_cons,
            getAttr_v3Tail_ne "N" .normal p.normalsAttr pts "pscale" (by decide),
            getAttr_v3Tail_ne "v" .vector p.velocitiesAttr pts "pscale" (by decide)]
    · intro hge
      have hD : widthsTail p.widthsAttr pts = [("pscale", halveWidths ws)] := by
        simp [widthsTail, hws, Nat.not_lt.mpr hge]
      simp [hD, getAttr_append, getAttr_cons,
            getAttr_v3Tail_ne "N" .normal p.normalsAttr pts "pscale" (by decide),
            getAttr_v3Tail_ne "v" .vector p.velocitiesAttr pts "pscale" (by decide)]

/-- Concrete read prim for the C3 witness: normals too short, velocities
long enough. -/
def wit3Prim : UsdGeomPointsPrim :=
  { pointsAttr := some [(0, 0, 0), (1, 1, 1)]
    normalsAttr := some [(1, 0, 0)]
    velocitiesAttr := some [(2, 0, 0), (3, 0, 0)]
    widthsAttr := some [4]
    pointPrimvars := []
    constantPrimvars := []
    path := "/points" }

/-- Concrete read wrapper for the C3 witness. -/
def wit3Wrapper : GusdPointsWrapper :=
  { usdPointsForWrite := false, usdPointsForRead := some wit3Prim }

/-- C3 witness: at the concrete prim, the undersized normals and widths are
dropped with warnings, the velocities are kept, and refine succeeds. -/
theorem C3_undersized_attrs_dropped_witness :
    (wit3Wrapper.refine none).ok = true ∧
    ∃ prim, (wit3Wrapper.refine none).prims = [prim] ∧
      (∀ ns, wit3Prim.normalsAttr = some ns →
        (ns.length < [((0 : Rat), (0 : Rat), (0 : Rat)), (1, 1, 1)].length →
          ("Not enough values found for normals in " ++ wit3Prim.path)
              ∈ (wit3Wrapper.refine none).warnings ∧
          getAttr prim.pointAttrs "N" = getAttr wit3Prim.pointPrimvars "N") ∧
        ([((0 : Rat), (0 : Rat), (0 : Rat)), (1, 1, 1)].length ≤ ns.length →
          getAttr prim.pointAttrs "N" = some (gtV3Array ns .normal))) ∧
      (∀ vs, wit3Prim.velocitiesAttr = some vs →
        (vs.length < [((0 : Rat), (0 : Rat), (0 : Rat)), (1, 1, 1)].length →
          ("Not enough values found for velocities in " ++ wit3Prim.path)
              ∈ (wit3Wrapper.refine none).warnings ∧
          getAttr prim.pointAttrs "v" = getAttr wit3Prim.pointPrimvars "v") ∧
        ([((0 : Rat), (0 : Rat), (0 : Rat)), (1, 1, 1)].length ≤ vs.length →
          getAttr prim.pointAttrs "v" = some (gtV3Array vs .vector))) ∧
      (∀ ws, wit3Prim.widthsAttr = some ws →
        (ws.length < [((0 : Rat), (0 : Rat), (0 : Rat)), (1, 1, 1)].length →
          ("Not enough values found for widths in " ++ wit3Prim.path)
              ∈ (wit3Wrapper.refine none).warnings ∧
          getAttr prim.pointAttrs "pscale"
            = getAttr wit3Prim.pointPrimvars "pscale") ∧
        ([((0 : Rat), (0 : Rat), (0 : Rat)), (1, 1, 1)].length ≤ ws.length →
          getAttr prim.pointAttrs "pscale" = some (halveWidths ws))) :=
  C3_undersized_attrs_dropped wit3Wrapper none wit3Prim
    [(0, 0, 0), (1, 1, 1)] rfl rfl rfl

/-- C5: `refine` returns false exactly when the wrapper is invalid (neither
handle set) or the points attribute of the prim seen through the read holder
is absent; in every other case it adds exactly one refined point-mesh
primitive to the refiner and returns true (the embedding is a total
function, so no exception is possible). -/
theorem C5_refine_failure_conditions (w : GusdPointsWrapper)
    (parms : Option Bool) :
    ((w.refine parms).ok = false ↔
      (w.isValid = false ∨
        (w.usdPointsForRead.getD invalidPointsPrim).pointsAttr = none)) ∧
    ((w.refine parms).ok = true → (w.refine parms).prims.length = 1) := by
  cases w with
  | mk wr rd =>
    cases rd with
    | none =>
      cases wr <;>
        simp [GusdPointsWrapper.refine, GusdPointsWrapper.isValid,
              invalidPointsPrim]
    | some p =>
      cases hp : p.pointsAttr with
      | none =>
        simp [GusdPointsWrapper.refine, GusdPointsWrapper.isValid, hp]
      | some pts =>
        cases hv : useViewportLOD parms <;>
          simp [GusdPointsWrapper.refine, GusdPointsWrapper.isValid, hp, hv]

/-- C5 witness: the theorem instantiated at a write-only wrapper with no
read prim, where refine fails, and trivially satisfied. -/
theorem C5_refine_failure_conditions_witness :
    (((GusdPointsWrapper.mk true none).refine none).ok = false ↔
      ((GusdPointsWrapper.mk true none).isValid = false ∨
        ((GusdPointsWrapper.mk true none).usdPointsForRead.getD
            invalidPointsPrim).pointsAttr = none)) ∧
    (((GusdPointsWrapper.mk true none).refine none).ok = true →
      ((GusdPointsWrapper.mk true none).refine none).prims.length = 1) :=
  C5_refine_failure_conditions (GusdPointsWrapper.mk true none) none

/-- C7: when the viewport level-of-detail shortcut applies, the produced
primitive carries the position attribute only, with no detail attributes and
no warnings; when it does not apply, the output carries position followed by
the processed normals, velocities and halved widths contributions and the
point-rate pass-through primvars, and the detail attributes are exactly the
constant-rate pass-through primvars. -/
theorem C7_viewport_lod_shortcut (w : GusdPointsWrapper) (parms : Option Bool)
    (p : UsdGeomPointsPrim) (pts : List Vec3)
    (hread : w.usdPointsForRead = some p)
    (hpts : p.pointsAttr = some pts) :
    (useViewportLOD parms = true →
      w.refine parms =
        { ok := true
          prims := [{ pointAttrs := [("P", gtV3Array pts .point)]
                      detailAttrs := [] }]
          warnings := [] }) ∧
    (useViewportLOD parms = false →
      ∃ prim, (w.refine parms).prims = [prim] ∧
        prim.pointAttrs =
          [("P", gtV3Array pts .point)]
            ++ v3Tail "N" .normal p.normalsAttr pts
            ++ v3Tail "v" .vector p.velocitiesAttr pts
            ++ widthsTail p.widthsAttr pts
            ++ p.pointPrimvars ∧
        prim.detailAttrs = p.constantPrimvars) := by
  constructor
  · intro hvp
    exact refine_viewport w parms p pts hread hvp hpts
  · intro hvp
    rw [refine_nonviewport w parms p pts hread hvp hpts]
    exact ⟨_, rfl, rfl, rfl⟩

/-- Concrete read prim for the C7 witness. -/
def wit7Prim : UsdGeomPointsPrim :=
  { pointsAttr := some [(2, 2, 2)]
    normalsAttr := some [(1, 0, 0)]
    velocitiesAttr := none
    widthsAttr := some [6]
    pointPrimvars := [("foo", { tupleSize := 1, typeTag := .plain, data := [7] })]
    constantPrimvars := []
    path := "/pts7" }

/-- Concrete read wrapper for the C7 witness. -/
def wit7Wrapper : GusdPointsWrapper :=
  { usdPointsForWrite := false, usdPointsForRead := some wit7Prim }

/-- C7 witness: at a concrete prim with the shortcut requested, refine
produces the position-only primitive. -/
theorem C7_viewport_lod_shortcut_witness :
    wit7Wrapper.refine (some true) =
      { ok := true
        prims := [{ pointAttrs := [("P", gtV3Array [(2, 2, 2)] .point)]
                    detailAttrs := [] }]
        warnings := [] } :=
  (C7_viewport_lod_shortcut wit7Wrapper (some true) wit7Prim
    [(2, 2, 2)] rfl rfl).1 rfl

/-- Classifier for purpose writes. -/
def isPurposeOp : WriteOp → Bool
  | .setPurpose _ => true
  | _ => false

/-- Classifier for visibility updates. -/
def isVisibilityOp : WriteOp → Bool
  | .updateVisibility => true
  | _ => false

/-- Classifier for schema-attribute writes of a given name. -/
def isSetAttrNamed (name : String) : WriteOp → Bool
  | .setAttr n _ _ => n == name
  | _ => false

theorem mem_updatePrimvarFromGTPrim (op : WriteOp) (attrs : GT_AttributeList)
    (f : GusdGT_AttrFilter) (interp : String) :
    op ∈ updatePrimvarFromGTPrim attrs f interp ↔
      ∃ e ∈ attrs, f.matches e.1 = true ∧ op = .setPrimvar e.1 interp e.2 := by
  simp only [updatePrimvarFromGTPrim, List.mem_filterMap]
  constructor
  · rintro ⟨e, he, hm⟩
    by_cases h : f.matches e.1
    · simp only [h, if_pos] at hm
      exact ⟨e, he, h, (Option.some.injEq _ _ ▸ hm).symm⟩
    · simp [h] at hm
  · rintro ⟨e, he, hm, rfl⟩
    exact ⟨e, he, by simp [hm]⟩

theorem filter_updateAttributeFromGTPrim (p : WriteOp → Bool)
    (hp : ∀ n o a, p (.setAttr n o a) = false) (o : GT_Owner) (n : String)
    (h : Option GT_DataArray) :
    (updateAttributeFromGTPrim o n h).filter p = [] := by
  cases h <;> simp [updateAttributeFromGTPrim, hp]

theorem filter_findAndWriteAttr (p : WriteOp → Bool)
    (hp : ∀ n o a, p (.setAttr n o a) = false) (src : GTSourcePrim)
    (name : String) : (findAndWriteAttr src name).filter p = [] := by
  unfold findAndWriteAttr
  cases h : src.findAttribute name with
  | none => exact filter_updateAttributeFromGTPrim p hp _ _ _
  | some oa => exact filter_updateAttributeFromGTPrim p hp _ _ _

theorem filter_widthsWriteOps (p : WriteOp → Bool)
    (hp : ∀ n o a, p (.setAttr n o a) = false) (src : GTSourcePrim) :
    (widthsWriteOps src).filter p = [] := by
  unfold widthsWriteOps
  cases h : resolveWidthsSource src with
  | none => exact filter_updateAttributeFromGTPrim p hp _ _ _
  | some oa => exact filter_updateAttributeFromGTPrim p hp _ _ _

theorem filter_updatePrimvarFromGTPrim (p : WriteOp → Bool)
    (hp : ∀ n i d, p (.setPrimvar n i d) = false) (attrs : GT_AttributeList)
    (f : GusdGT_AttrFilter) (interp : String) :
    (updatePrimvarFromGTPrim attrs f interp).filter p = [] := by
  rw [List.filter_eq_nil_iff]
  intro a ha
  rw [mem_updatePrimvarFromGTPrim] at ha
  obtain ⟨e, _, _, rfl⟩ := ha
  simp [hp]

theorem filter_passThroughPrimvarOps (p : WriteOp → Bool)
    (hp : ∀ n i d, p (.setPrimvar n i d) = false) (src : GTSourcePrim)
    (ctxt : GusdContext) : (passThroughPrimvarOps src ctxt).filter p = [] := by
  unfold passThroughPrimvarOps
  simp only [List.filter_append]
  rw [List.append_eq_nil]
  constructor
  · cases src.pointAttributes with
    | none => simp
    | some pa => exact filter_updatePrimvarFromGTPrim p hp _ _ _
  · cases src.detailAttributes with
    | none => simp
    | some ca => exact filter_updatePrimvarFromGTPrim p hp _ _ _

theorem filter_displayColorOps (p : WriteOp → Bool)
    (hp : ∀ n i d, p (.setPrimvar n i d) = false) (src : GTSourcePrim) :
    (displayColorOps src).filter p = [] := by
  unfold displayColorOps
  cases h : src.findAttribute "Cd" with
  | none => simp
  | some oa => simp [hp]

theorem ops_filter_purpose (w : GusdPointsWrapper) (src : GTSourcePrim)
    (ctxt : GusdContext) (hw : w.usdPointsForWrite = true) :
    ((w.updateFromGTPrim src ctxt).2).filter isPurposeOp = purposeOps ctxt := by
  have hsa : ∀ n o a, isPurposeOp (.setAttr n o a) = false := fun _ _ _ => rfl
  have hsp : ∀ n i d, isPurposeOp (.setPrimvar n i d) = false := fun _ _ _ => rfl
  simp only [GusdPointsWrapper.updateFromGTPrim, hw, Bool.not_true,
             Bool.false_eq_true, if_false, List.filter_append]
  rw [filter_updateAttributeFromGTPrim _ hsa,
      filter_findAndWriteAttr _ hsa, filter_findAndWriteAttr _ hsa,
      filter_findAndWriteAttr _ hsa, filter_widthsWriteOps _ hsa,
      filter_passThroughPrimvarOps _ hsp, filter_displayColorOps _ hsp]
  have hpp : (purposeOps ctxt).filter isPurposeOp = purposeOps ctxt := by
    unfold purposeOps; split <;> simp [isPurposeOp]
  have hvv : (visibilityOps ctxt).filter isPurposeOp = [] := by
    unfold visibilityOps; split <;> simp [isPurposeOp]
  simp [hpp, hvv, isPurposeOp]

theorem ops_filter_visibility (w : GusdPointsWrapper) (src : GTSourcePrim)
    (ctxt : GusdContext) (hw : w.usdPointsForWrite = true) :
    ((w.updateFromGTPrim src ctxt).2).filter isVisibilityOp
      = visibilityOps ctxt := by
  have hsa : ∀ n o a, isVisibilityOp (.setAttr n o a) = false := fun _ _ _ => rfl
  have hsp : ∀ n i d, isVisibilityOp (.setPrimvar n i d) = false :=
    fun _ _ _ => rfl
  simp only [GusdPointsWrapper.updateFromGTPrim, hw, Bool.not_true,
             Bool.false_eq_true, if_false, List.filter_append]
  rw [filter_updateAttributeFromGTPrim _ hsa,
      filter_findAndWriteAttr _ hsa, filter_findAndWriteAttr _ hsa,
      filter_findAndWriteAttr _ hsa, filter_widthsWriteOps _ hsa,
      filter_passThroughPrimvarOps _ hsp, filter_displayColorOps _ hsp]
  have hpp : (purposeOps ctxt).filter isVisibilityOp = [] := by
    unfold purposeOps; split <;> simp [isVisibilityOp]
  have hvv : (visibilityOps ctxt).filter isVisibilityOp = visibilityOps ctxt := by
    unfold visibilityOps; split <;> simp [isVisibilityOp]
  simp [hpp, hvv, isVisibilityOp]

theorem filter_findAndWriteAttr_ne (name target : String)
    (hne : (name == target) = false) (src : GTSourcePrim) :
    (findAndWriteAttr src name).filter (isSetAttrNamed target) = [] := by
  unfold findAndWriteAttr
  cases h : src.findAttribute name with
  | none => simp [updateAttributeFromGTPrim]
  | some oa => simp [updateAttributeFromGTPrim, isSetAttrNamed, hne]

theorem ops_filter_widths (w : GusdPointsWrapper) (src : GTSourcePrim)
    (ctxt : GusdContext) (hw : w.usdPointsForWrite = true) :
    ((w.updateFromGTPrim src ctxt).2).filter (isSetAttrNamed "widths")
      = widthsWriteOps src := by
  have hsp : ∀ n i d, isSetAttrNamed "widths" (.setPrimvar n i d) = false :=
    fun _ _ _ => rfl
  simp only [GusdPointsWrapper.updateFromGTPrim, hw, Bool.not_true,
             Bool.false_eq_true, if_false, List.filter_append]
  rw [filter_findAndWriteAttr_ne "P" "widths" (by decide),
      filter_findAndWriteAttr_ne "N" "widths" (by decide),
      filter_findAndWriteAttr_ne "v" "widths" (by decide),
      filter_passThroughPrimvarOps _ hsp, filter_displayColorOps _ hsp]
  have hext : (updateAttributeFromGTPrim .invalid "extents" src.extents).filter
      (isSetAttrNamed "widths") = [] := by
    cases src.extents <;> simp [updateAttributeFromGTPrim, isSetAttrNamed]
  have hpp : (purposeOps ctxt).filter (isSetAttrNamed "widths") = [] := by
    unfold purposeOps; split <;> simp [isSetAttrNamed]
  have hvv : (visibilityOps ctxt).filter (isSetAttrNamed "widths") = [] := by
    unfold visibilityOps; split <;> simp [isSetAttrNamed]
  have hww : (widthsWriteOps src).filter (isSetAttrNamed "widths")
      = widthsWriteOps src := by
    unfold widthsWriteOps
    cases h : resolveWidthsSource src with
    | none => simp [updateAttributeFromGTPrim]
    | some oa => simp [updateAttributeFromGTPrim, isSetAttrNamed]
  simp [hext, hpp, hvv, hww, isSetAttrNamed]

theorem setPurpose_mem_iff (w : GusdPointsWrapper) (src : GTSourcePrim)
    (ctxt : GusdContext) (hw : w.usdPointsForWrite = true) (x : String) :
    (WriteOp.setPurpose x ∈ (w.updateFromGTPrim src ctxt).2) ↔
      (ctxt.overGeo = false ∧ ctxt.purpose ≠ UsdGeomTokens.fallbackPurpose ∧
        x = ctxt.purpose) := by
  have h1 : (WriteOp.setPurpose x ∈ (w.updateFromGTPrim src ctxt).2) ↔
      WriteOp.setPurpose x
        ∈ ((w.updateFromGTPrim src ctxt).2).filter isPurposeOp := by
    simp [List.mem_filter, isPurposeOp]
  rw [h1, ops_filter_purpose w src ctxt hw]
  unfold purposeOps
  split
  case isTrue h =>
    rw [Bool.and_eq_true, Bool.not_eq_eq_eq_not, Bool.not_true,
        bne_iff_ne] at h
    simp only [List.mem_singleton, WriteOp.setPurpose.injEq]
    exact ⟨fun hx => ⟨h.1, h.2, hx⟩, fun hx => hx.2.2⟩
  case isFalse h =>
    rw [Bool.and_eq_true, Bool.not_eq_eq_eq_not, Bool.not_true,
        bne_iff_ne] at h
    simp only [List.not_mem_nil, false_iff]
    intro hx
    exact h ⟨hx.1, hx.2.1⟩

theorem updateVisibility_mem_iff (w : GusdPointsWrapper) (src : GTSourcePrim)
    (ctxt : GusdContext) (hw : w.usdPointsForWrite = true) :
    (WriteOp.updateVisibility ∈ (w.updateFromGTPrim src ctxt).2) ↔
      ctxt.granularity = .perFrame := by
  have h1 : (WriteOp.updateVisibility ∈ (w.updateFromGTPrim src ctxt).2) ↔
      WriteOp.updateVisibility
        ∈ ((w.updateFromGTPrim src ctxt).2).filter isVisibilityOp := by
    simp [List.mem_filter, isVisibilityOp]
  rw [h1, ops_filter_visibility w src ctxt hw]
  unfold visibilityOps
  split
  case isTrue h => simp [beq_iff_eq.mp h]
  case isFalse h =>
    simp only [List.not_mem_nil, false_iff]
    intro hx
    exact h (by simp [hx])

theorem setAttrWidths_mem_iff (w : GusdPointsWrapper) (src : GTSourcePrim)
    (ctxt : GusdContext) (hw : w.usdPointsForWrite = true) (o : GT_Owner)
    (a : GT_DataArray) :
    (WriteOp.setAttr "widths" o a ∈ (w.updateFromGTPrim src ctxt).2) ↔
      resolveWidthsSource src = some (o, a) := by
  have h1 : (WriteOp.setAttr "widths" o a ∈ (w.updateFromGTPrim src ctxt).2) ↔
      WriteOp.setAttr "widths" o a
        ∈ ((w.updateFromGTPrim src ctxt).2).filter (isSetAttrNamed "widths") := by
    simp [List.mem_filter, isSetAttrNamed]
  rw [h1, ops_filter_widths w src ctxt hw]
  unfold widthsWriteOps
  cases h : resolveWidthsSource src with
  | none => simp [updateAttributeFromGTPrim]
  | some oa =>
    cases oa with
    | mk o2 a2 =>
      simp only [updateAttributeFromGTPrim, List.mem_singleton,
                 WriteOp.setAttr.injEq, Option.some.injEq, Prod.mk.injEq,
                 true_and]
      exact ⟨fun hx => ⟨hx.1.symm, hx.2.symm⟩, fun hx => ⟨hx.1.symm, hx.2.symm⟩⟩

/-- A permissive base attribute filter for concrete examples. -/
def exFilter : GusdGT_AttrFilter :=
  { base := fun _ _ => true, exclusions := [], activeOwners := [] }

/-- A concrete define-mode context with the default purpose. -/
def exCtxt : GusdContext :=
  { overGeo := false
    purpose := "default"
    granularity := .perFrame
    attributeFilter := exFilter }

/-- A concrete empty source primitive. -/
def exSrc : GTSourcePrim :=
  { attrs := [], pointAttributes := none, detailAttributes := none
    extents := none }

/-- A concrete wrapper with a valid write prim. -/
def exWriteWrapper : GusdPointsWrapper :=
  { usdPointsForWrite := true, usdPointsForRead := none }

/-- C6: when the write-target prim was never successfully defined,
`updateFromGTPrim` returns false and performs no write at all. -/
theorem C6_invalid_write_prim_no_writes (w : GusdPointsWrapper)
    (src : GTSourcePrim) (ctxt : GusdContext)
    (hw : w.usdPointsForWrite = false) :
    w.updateFromGTPrim src ctxt = (false, []) := by
  simp [GusdPointsWrapper.updateFromGTPrim, hw]

/-- C6 witness at a concrete wrapper whose write handle is invalid. -/
theorem C6_invalid_write_prim_no_writes_witness :
    (GusdPointsWrapper.mk false none).updateFromGTPrim exSrc exCtxt
      = (false, []) :=
  C6_invalid_write_prim_no_writes (GusdPointsWrapper.mk false none)
    exSrc exCtxt rfl

/-- C9: `redefine` returns true for every stage, path and context, and the
validity of the wrapper's write prim afterwards is exactly the result of
`initUsdPrim`, which is discarded — so redefine reports success even when
the underlying define or override fails and the wrapper is left without a
valid write-target prim. -/
theorem C9_redefine_always_true (w : GusdPointsWrapper) (stage : UsdStagePtr)
    (path : String) (ctxt : GusdContext) :
    (w.redefine stage path ctxt).2 = true ∧
    (w.redefine stage path ctxt).1.usdPointsForWrite
      = initUsdPrim stage path ctxt.overGeo :=
  ⟨rfl, rfl⟩

/-- C10: even in define mode, the purpose attribute is authored only when
the context purpose differs from the schema's default purpose token; with
the default purpose no purpose write happens. -/
theorem C10_purpose_only_when_nondefault (w : GusdPointsWrapper)
    (src : GTSourcePrim) (ctxt : GusdContext)
    (hw : w.usdPointsForWrite = true) (hnew : ctxt.overGeo = false) :
    (ctxt.purpose = UsdGeomTokens.fallbackPurpose →
      ∀ x, WriteOp.setPurpose x ∉ (w.updateFromGTPrim src ctxt).2) ∧
    (ctxt.purpose ≠ UsdGeomTokens.fallbackPurpose →
      WriteOp.setPurpose ctxt.purpose ∈ (w.updateFromGTPrim src ctxt).2) := by
  constructor
  · intro hdef x hmem
    rw [setPurpose_mem_iff w src ctxt hw] at hmem
    exact hmem.2.1 hdef
  · intro hne
    rw [setPurpose_mem_iff w src ctxt hw]
    exact ⟨hnew, hne, rfl⟩

/-- C10 witness: with the default purpose in define mode, no purpose write
is emitted at a concrete input. -/
theorem C10_purpose_only_when_nondefault_witness :
    WriteOp.setPurpose "render"
      ∉ (exWriteWrapper.updateFromGTPrim exSrc exCtxt).2 :=
  (C10_purpose_only_when_nondefault exWriteWrapper exSrc exCtxt rfl rfl).1
    rfl "render"

/-- A concrete override-mode per-frame context. -/
def cx4Ctxt : GusdContext :=
  { overGeo := true
    purpose := "default"
    granularity := .perFrame
    attributeFilter := exFilter }

/-- C4 counterexample: in override mode (not newly authored geometry) with
per-frame granularity, `updateFromGTPrim` still updates visibility, so the
claim that visibility is updated only for newly authored geometry is false. -/
theorem C4_counterexample_visibility_in_override :
    cx4Ctxt.overGeo = true ∧
    WriteOp.updateVisibility
      ∈ (exWriteWrapper.updateFromGTPrim exSrc cx4Ctxt).2 :=
  ⟨rfl, (updateVisibility_mem_iff exWriteWrapper exSrc cx4Ctxt rfl).mpr rfl⟩

/-- C4 amended: the purpose attribute is authored only for newly authored
geometry (and a non-default purpose), but visibility is updated exactly when
the granularity is per-frame, regardless of define or override mode. -/
theorem C4_purpose_define_only_visibility_per_frame (w : GusdPointsWrapper)
    (src : GTSourcePrim) (ctxt : GusdContext)
    (hw : w.usdPointsForWrite = true) :
    ((WriteOp.updateVisibility ∈ (w.updateFromGTPrim src ctxt).2) ↔
      ctxt.granularity = .perFrame) ∧
    (∀ x, WriteOp.setPurpose x ∈ (w.updateFromGTPrim src ctxt).2 →
      ctxt.overGeo = false ∧
        ctxt.purpose ≠ UsdGeomTokens.fallbackPurpose) ∧
    (ctxt.overGeo = false → ctxt.purpose ≠ UsdGeomTokens.fallbackPurpose →
      WriteOp.setPurpose ctxt.purpose ∈ (w.updateFromGTPrim src ctxt).2) := by
  refine ⟨updateVisibility_mem_iff w src ctxt hw, ?_, ?_⟩
  · intro x hmem
    rw [setPurpose_mem_iff w src ctxt hw] at hmem
    exact ⟨hmem.1, hmem.2.1⟩
  · intro hnew hne
    rw [setPurpose_mem_iff w src ctxt hw]
    exact ⟨hnew, hne, rfl⟩

/-- C4 witness: in the concrete override-mode per-frame context the
visibility update is emitted. -/
theorem C4_purpose_define_only_visibility_per_frame_witness :
    WriteOp.updateVisibility
      ∈ (exWriteWrapper.updateFromGTPrim exSrc cx4Ctxt).2 :=
  (C4_purpose_define_only_visibility_per_frame exWriteWrapper exSrc cx4Ctxt
    rfl).1.mpr rfl

/-- A concrete source prim carrying a non-scalar (tuple size 3) pscale
attribute and no widths attribute. -/
def cx2Src : GTSourcePrim :=
  { attrs := [("pscale", (GT_Owner.point, ⟨3, .plain, [1, 2, 3]⟩))]
    pointAttributes := none
    detailAttributes := none
    extents := none }

/-- C2 counterexample: the source supplies pscale and no widths, yet the
value handed to the widths attribute write is the unscaled pscale data
(the doubling is skipped because the tuple size is not 1), so not every
written value equals the pscale value times 2. -/
theorem C2_counterexample_nonscalar_pscale :
    cx2Src.findAttribute "widths" = none ∧
    cx2Src.findAttribute "pscale"
      = some (GT_Owner.point, ⟨3, .plain, [1, 2, 3]⟩) ∧
    WriteOp.setAttr "widths" GT_Owner.point ⟨3, .plain, [1, 2, 3]⟩
      ∈ (exWriteWrapper.updateFromGTPrim cx2Src exCtxt).2 ∧
    WriteOp.setAttr "widths" GT_Owner.point ⟨3, .plain, [2, 4, 6]⟩
      ∉ (exWriteWrapper.updateFromGTPrim cx2Src exCtxt).2 := by
  refine ⟨rfl, rfl, ?_, ?_⟩
  · exact (setAttrWidths_mem_iff exWriteWrapper cx2Src exCtxt rfl
      GT_Owner.point ⟨3, .plain, [1, 2, 3]⟩).mpr (by decide)
  · intro hmem
    rw [setAttrWidths_mem_iff exWriteWrapper cx2Src exCtxt rfl] at hmem
    exact absurd hmem (by decide)

/-- C2 amended: the 2x scale-back from pscale to widths is applied only when
the source supplies no widths attribute and a pscale attribute of tuple
size 1; an explicit widths attribute is passed to the widths write
unscaled, and so is a non-scalar pscale attribute. -/
theorem C2_widths_scaleback (w : GusdPointsWrapper) (src : GTSourcePrim)
    (ctxt : GusdContext) (hw : w.usdPointsForWrite = true) :
    (∀ o a, src.findAttribute "widths" = some (o, a) →
      WriteOp.setAttr "widths" o a ∈ (w.updateFromGTPrim src ctxt).2) ∧
    (∀ o a, src.findAttribute "widths" = none →
      src.findAttribute "pscale" = some (o, a) → a.tupleSize = 1 →
      WriteOp.setAttr "widths" o
          { tupleSize := 1, typeTag := .plain
            data := a.data.map (fun x => 2 * x) }
        ∈ (w.updateFromGTPrim src ctxt).2) ∧
    (∀ o a, src.findAttribute "widths" = none →
      src.findAttribute "pscale" = some (o, a) → a.tupleSize ≠ 1 →
      WriteOp.setAttr "widths" o a ∈ (w.updateFromGTPrim src ctxt).2) := by
  refine ⟨?_, ?_, ?_⟩
  · intro o a hfind
    rw [setAttrWidths_mem_iff w src ctxt hw]
    simp [resolveWidthsSource, hfind]
  · intro o a hnone hps hts
    rw [setAttrWidths_mem_iff w src ctxt hw]
    simp [resolveWidthsSource, hnone, hps, hts]
  · intro o a hnone hps hts
    rw [setAttrWidths_mem_iff w src ctxt hw]
    have hb : (a.tupleSize == 1) = false := beq_eq_false_iff_ne.mpr hts
    simp [resolveWidthsSource, hnone, hps, hb]

/-- A concrete source prim carrying a scalar pscale attribute with values
3 and 5, and no widths attribute. -/
def wit2Src : GTSourcePrim :=
  { attrs := [("pscale", (GT_Owner.point, ⟨1, .plain, [3, 5]⟩))]
    pointAttributes := none
    detailAttributes := none
    extents := none }

/-- C2 witness: the scalar pscale values 3 and 5 are written to widths as
6 and 10. -/
theorem C2_widths_scaleback_witness :
    WriteOp.setAttr "widths" GT_Owner.point ⟨1, .plain, [6, 10]⟩
      ∈ (exWriteWrapper.updateFromGTPrim wit2Src exCtxt).2 := by
  have h := (C2_widths_scaleback exWriteWrapper wit2Src exCtxt rfl).2.1
    GT_Owner.point ⟨1, .plain, [3, 5]⟩ rfl rfl rfl
  have hmap : (([3, 5] : List Rat).map (fun x => 2 * x)) = [6, 10] := by
    norm_num
  rw [hmap] at h
  exact h

theorem matches_false_of_excluded (f : GusdGT_AttrFilter) (o : GT_Owner)
    (name : String) (hact : f.activeOwners = [o])
    (hex : (o, name) ∈ f.exclusions) : f.matches name = false := by
  simp [GusdGT_AttrFilter.matches, hact, hex]

theorem mem_exclusions_appendPattern (f : GusdGT_AttrFilter) (o : GT_Owner)
    (pat : String) (name : String) (h : name ∈ parseExclusions pat) :
    (o, name) ∈ (f.appendPattern o pat).exclusions := by
  simp only [GusdGT_AttrFilter.appendPattern, List.mem_append, List.mem_map]
  exact Or.inr ⟨name, h, rfl⟩

theorem mem_exclusions_appendPattern_mono (f : GusdGT_AttrFilter)
    (o o2 : GT_Owner) (pat : String) (name : String)
    (h : (o, name) ∈ f.exclusions) :
    (o, name) ∈ (f.appendPattern o2 pat).exclusions := by
  simp only [GusdGT_AttrFilter.appendPattern, List.mem_append]
  exact Or.inl h

theorem exclusions_setActiveOwners (f : GusdGT_AttrFilter)
    (owners : List GT_Owner) :
    (f.setActiveOwners owners).exclusions = f.exclusions := rfl

/-- C8: after the write path appends its reserved-name exclusion patterns,
the pass-through step never writes a generic primvar named P, N, v, widths
or pscale at point scope (vertex interpolation), and never writes one named
visible or usdactive at either scope. -/
theorem C8_reserved_names_excluded (src : GTSourcePrim) (ctxt : GusdContext) :
    (∀ d : GT_DataArray,
      ∀ name ∈ (["P", "N", "v", "widths", "pscale", "visible",
                 "usdactive"] : List String),
        WriteOp.setPrimvar name "vertex" d ∉ passThroughPrimvarOps src ctxt) ∧
    (∀ (d : GT_DataArray) (interp : String),
      ∀ name ∈ (["visible", "usdactive"] : List String),
        WriteOp.setPrimvar name interp d ∉ passThroughPrimvarOps src ctxt) := by
  have hparse7 : parseExclusions "^P ^N ^v ^widths ^pscale ^visible ^usdactive"
      = ["P", "N", "v", "widths", "pscale", "visible", "usdactive"] := by
    decide
  have hparse2 : parseExclusions "^visible ^usdactive"
      = ["visible", "usdactive"] := by decide
  have hpointMatch : ∀ name : String,
      name ∈ parseExclusions "^P ^N ^v ^widths ^pscale ^visible ^usdactive" →
      (((ctxt.attributeFilter.appendPattern GT_Owner.point
            "^P ^N ^v ^widths ^pscale ^visible ^usdactive").appendPattern
          GT_Owner.constant "^visible ^usdactive").setActiveOwners
        [GT_Owner.point]).matches name = false := by
    intro name hname
    apply matches_false_of_excluded _ GT_Owner.point name rfl
    rw [exclusions_setActiveOwners]
    exact mem_exclusions_appendPattern_mono _ _ _ _ _
      (mem_exclusions_appendPattern _ _ _ _ hname)
  have hconstMatch : ∀ name : String,
      name ∈ parseExclusions "^visible ^usdactive" →
      (((ctxt.attributeFilter.appendPattern GT_Owner.point
            "^P ^N ^v ^widths ^pscale ^visible ^usdactive").appendPattern
          GT_Owner.constant "^visible ^usdactive").setActiveOwners
        [GT_Owner.constant]).matches name = false := by
    intro name hname
    apply matches_false_of_excluded _ GT_Owner.constant name rfl
    rw [exclusions_setActiveOwners]
    exact mem_exclusions_appendPattern _ _ _ _ hname
  constructor
  · intro d name hname hmem
    unfold passThroughPrimvarOps at hmem
    rw [List.mem_append] at hmem
    rcases hmem with hmem | hmem
    · cases hpa : src.pointAttributes with
      | none => rw [hpa] at hmem; exact absurd hmem (List.not_mem_nil _)
      | some pa =>
        rw [hpa, mem_updatePrimvarFromGTPrim] at hmem
        obtain ⟨e, _, hmatch, heq⟩ := hmem
        injection heq with h1 h2 h3
        rw [← h1] at hmatch
        rw [hpointMatch name (hparse7 ▸ hname)] at hmatch
        exact Bool.false_ne_true hmatch
    · cases hca : src.detailAttributes with
      | none => rw [hca] at hmem; exact absurd hmem (List.not_mem_nil _)
      | some ca =>
        rw [hca, mem_updatePrimvarFromGTPrim] at hmem
        obtain ⟨e, _, _, heq⟩ := hmem
        injection heq with h1 h2 h3
        exact absurd h2 (by decide)
  · intro d interp name hname hmem
    have hname7 : name ∈ (["P", "N", "v", "widths", "pscale", "visible",
        "usdactive"] : List String) := by
      have h2 : name = "visible" ∨ name = "usdactive" := by simpa using hname
      rcases h2 with rfl | rfl <;> simp
    unfold passThroughPrimvarOps at hmem
    rw [List.mem_append] at hmem
    rcases hmem with hmem | hmem
    · cases hpa : src.pointAttributes with
      | none => rw [hpa] at hmem; exact absurd hmem (List.not_mem_nil _)
      | some pa =>
        rw [hpa, mem_updatePrimvarFromGTPrim] at hmem
        obtain ⟨e, _, hmatch, heq⟩ := hmem
        injection heq with h1 h2 h3
        rw [← h1] at hmatch
        rw [hpointMatch name (hparse7 ▸ hname7)] at hmatch
        exact Bool.false_ne_true hmatch
    · cases hca : src.detailAttributes with
      | none => rw [hca] at hmem; exact absurd hmem (List.not_mem_nil _)
      | some ca =>
        rw [hca, mem_updatePrimvarFromGTPrim] at hmem
        obtain ⟨e, _, hmatch, heq⟩ := hmem
        injection heq with h1 h2 h3
        rw [← h1] at hmatch
        rw [hconstMatch name (hparse2 ▸ hname)] at hmatch
        exact Bool.false_ne_true hmatch

/-- A concrete source prim whose point attributes include the reserved name
pscale next to an ordinary attribute. -/
def wit8Src : GTSourcePrim :=
  { attrs := []
    pointAttributes := some [("pscale", ⟨1, .plain, [1]⟩),
                             ("foo", ⟨1, .plain, [2]⟩)]
    detailAttributes := none
    extents := none }

/-- C8 witness: the reserved name pscale is never passed through at a
concrete source prim that carries it as a point attribute. -/
theorem C8_reserved_names_excluded_witness :
    WriteOp.setPrimvar "pscale" "vertex" ⟨1, .plain, [1]⟩
      ∉ passThroughPrimvarOps wit8Src exCtxt :=
  (C8_reserved_names_excluded wit8Src exCtxt).1 ⟨1, .plain, [1]⟩ "pscale"
    (by simp)

end Gusd
